import Mathlib

/-!
HexHunt desktop bootstrap (`linux/main.cc`).

`main` is a straight-line sequence of calls into the GUI toolkit and the
embedding framework.  The embedding below makes that sequence explicit:

* every external call is a value of `Call`, recorded in call order in a trace;
* the results the external world hands back (the rewritten argument vector,
  the application handle, the active window, the loaded image, the run-loop
  status) are the fields of `Env`;
* the presentation properties of the toolkit windows are an explicit store
  `WindowId → WindowState`, threaded through the calls.

Pointers are handles: a non-null pointer is a number, a nullable pointer is
an `Option`.  The C `int` values that occur (1280, 720, the status) are only
passed along, never computed with, so they are kept as `Int`.
-/

namespace HexHunt

/-- The process argument vector: `argc` together with `argv`. -/
structure Args where
  argc : Int
  argv : List String
deriving DecidableEq, Repr

/-- A non-null `GtkWindow*`. -/
abbrev WindowId := Nat

/-- A non-null `GdkPixbuf*`. -/
abbrev Pixbuf := Nat

/-- A non-null `MyApplication*`. -/
abbrev AppId := Nat

/-- The reference-counted objects `main` owns a reference to. -/
inductive Obj where
  | app (a : AppId)
  | pixbuf (p : Pixbuf)
deriving DecidableEq, Repr

/-- The presentation properties of one toolkit window that `main` touches. -/
structure WindowState where
  title : String
  defaultWidth : Int
  defaultHeight : Int
  resizable : Bool
  decorated : Bool
  skipTaskbarHint : Bool
  skipPagerHint : Bool
  icon : Option Pixbuf
deriving DecidableEq, Repr

/-- The external calls of `main`, with the arguments they are given.  A window
argument is nullable (`none` is the null pointer); the second argument of
`gdk_pixbuf_new_from_file` is the `GError**` out-parameter (`none` is
`nullptr`). -/
inductive Call where
  | gtk_init (args : Args)
  | my_application_new
  | gtk_application_get_active_window (app : AppId)
  | gtk_window_set_title (window : Option WindowId) (title : String)
  | gtk_window_set_default_size (window : Option WindowId) (width height : Int)
  | gtk_window_set_resizable (window : Option WindowId) (resizable : Bool)
  | gtk_window_set_decorated (window : Option WindowId) (setting : Bool)
  | gtk_window_set_skip_taskbar_hint (window : Option WindowId) (setting : Bool)
  | gtk_window_set_skip_pager_hint (window : Option WindowId) (setting : Bool)
  | gdk_pixbuf_new_from_file (filename : String) (error : Option Nat)
  | gtk_window_set_icon (window : Option WindowId) (icon : Pixbuf)
  | g_object_unref (obj : Obj)
  | g_application_run (app : AppId) (args : Args)
deriving DecidableEq, Repr

/-- Modelled from the spec: the toolkit's window-property setters are not part
of this repository; each one "targets an independent window property", so a
setter overwrites exactly its own property of the window and every other call
leaves the window's properties alone. -/
def Call.onWindow : Call → WindowState → WindowState
  | .gtk_window_set_title _ t, s => { s with title := t }
  | .gtk_window_set_default_size _ width height, s =>
      { s with defaultWidth := width, defaultHeight := height }
  | .gtk_window_set_resizable _ b, s => { s with resizable := b }
  | .gtk_window_set_decorated _ b, s => { s with decorated := b }
  | .gtk_window_set_skip_taskbar_hint _ b, s => { s with skipTaskbarHint := b }
  | .gtk_window_set_skip_pager_hint _ b, s => { s with skipPagerHint := b }
  | .gtk_window_set_icon _ p, s => { s with icon := some p }
  | _, s => s

/-- The window argument of a window call (`none` for a null window and for
calls that take no window). -/
def Call.target : Call → Option WindowId
  | .gtk_window_set_title w _ => w
  | .gtk_window_set_default_size w _ _ => w
  | .gtk_window_set_resizable w _ => w
  | .gtk_window_set_decorated w _ => w
  | .gtk_window_set_skip_taskbar_hint w _ => w
  | .gtk_window_set_skip_pager_hint w _ => w
  | .gtk_window_set_icon w _ => w
  | _ => none

/-- Modelled from the spec: the effect of one call on the window store.  A
window call changes the properties of its own window only; on a null window
there is no window whose properties could change. -/
def Call.effect (c : Call) (ws : WindowId → WindowState) : WindowId → WindowState :=
  match c.target with
  | some w => Function.update ws w (c.onWindow (ws w))
  | none => ws

/-- Is the call one of the window-property calls (`gtk_window_set_*`)? -/
def Call.isWindowCall : Call → Bool
  | .gtk_window_set_title _ _ => true
  | .gtk_window_set_default_size _ _ _ => true
  | .gtk_window_set_resizable _ _ => true
  | .gtk_window_set_decorated _ _ => true
  | .gtk_window_set_skip_taskbar_hint _ _ => true
  | .gtk_window_set_skip_pager_hint _ _ => true
  | .gtk_window_set_icon _ _ => true
  | _ => false

/-- Is the call the icon assignment `gtk_window_set_icon`? -/
def Call.isSetIcon : Call → Bool
  | .gtk_window_set_icon _ _ => true
  | _ => false

/-- Is the call a file read (`gdk_pixbuf_new_from_file`)? -/
def Call.isFileRead : Call → Bool
  | .gdk_pixbuf_new_from_file _ _ => true
  | _ => false

/-- Is the call the toolkit initializer? -/
def Call.isInit : Call → Bool
  | .gtk_init _ => true
  | _ => false

/-- Is the call the run loop? -/
def Call.isRun : Call → Bool
  | .g_application_run _ _ => true
  | _ => false

/-- Is the call an acquisition of an owned reference: the construction of the
application object, or the image load? -/
def Call.isAcquire : Call → Bool
  | .my_application_new => true
  | .gdk_pixbuf_new_from_file _ _ => true
  | _ => false

/-- Is the call a release (`g_object_unref`)? -/
def Call.isRelease : Call → Bool
  | .g_object_unref _ => true
  | _ => false

/-- What `main` has done so far: the calls made, oldest first, and the window
store they have produced. -/
structure State where
  trace : List Call
  windows : WindowId → WindowState

/-- Perform one external call: record it and apply its effect on the windows. -/
def State.call (s : State) (c : Call) : State :=
  ⟨s.trace ++ [c], c.effect s.windows⟩

/-- The world outside `main`: what each external call returns.

* `windows`: the window store before `main` configures anything;
* `gtk_init`: the argument vector the initializer leaves behind in `argc` and
  `argv`, which it receives by address;
* `my_application_new`: the handle of the new application object;
* `gtk_application_get_active_window`: the active window, possibly null;
* `gdk_pixbuf_new_from_file`: the loaded image, null when the load fails;
* `g_application_run`: the status the run loop returns, which may depend on
  everything done before it is entered. -/
structure Env where
  windows : WindowId → WindowState
  gtk_init : Args → Args
  my_application_new : AppId
  gtk_application_get_active_window : AppId → Option WindowId
  gdk_pixbuf_new_from_file : String → Option Pixbuf
  g_application_run : State → AppId → Args → Int

/-- What one execution of `main` yields: the returned status, the state at the
moment the run loop is entered, and the complete trace of external calls. -/
structure Result where
  status : Int
  atRun : State
  trace : List Call

/-- The entry point `main(argc, argv)` of `linux/main.cc`, statement by
statement.  The casts `GTK_APPLICATION`, `G_APPLICATION` and `GTK_WINDOW` do
not change the handle.  `app` is declared `g_autoptr`, so the reference is
dropped when `app` goes out of scope, after the value of `return status;` is
fixed. -/
def main (env : Env) (args : Args) : Result :=
  let s : State := ⟨[], env.windows⟩
  -- gtk_init(&argc, &argv);
  let s := s.call (.gtk_init args)
  let args := env.gtk_init args
  -- g_autoptr(MyApplication) app = my_application_new();
  let s := s.call .my_application_new
  let app := env.my_application_new
  -- GtkWindow* window = GTK_WINDOW(gtk_application_get_active_window(GTK_APPLICATION(app)));
  let s := s.call (.gtk_application_get_active_window app)
  let window := env.gtk_application_get_active_window app
  let s := s.call (.gtk_window_set_title window "HexHunt")
  let s := s.call (.gtk_window_set_default_size window 1280 720)
  let s := s.call (.gtk_window_set_resizable window true)
  let s := s.call (.gtk_window_set_decorated window true)
  let s := s.call (.gtk_window_set_skip_taskbar_hint window false)
  let s := s.call (.gtk_window_set_skip_pager_hint window false)
  -- GdkPixbuf* icon = gdk_pixbuf_new_from_file("data/flutter_assets/assets/app_icon.png", nullptr);
  let s := s.call (.gdk_pixbuf_new_from_file "data/flutter_assets/assets/app_icon.png" none)
  let icon := env.gdk_pixbuf_new_from_file "data/flutter_assets/assets/app_icon.png"
  -- if (icon != nullptr) { gtk_window_set_icon(window, icon); g_object_unref(icon); }
  let s := match icon with
    | some p => (s.call (.gtk_window_set_icon window p)).call (.g_object_unref (.pixbuf p))
    | none => s
  -- int status = g_application_run(G_APPLICATION(app), argc, argv);
  let status := env.g_application_run s app args
  let t := s.call (.g_application_run app args)
  -- return status;   (end of scope: the g_autoptr reference to app is dropped)
  let t := t.call (.g_object_unref (.app app))
  ⟨status, s, t.trace⟩

/-- The six window-property calls of `main` (lines 14 to 21), in source order,
on the window handle `w`. -/
def configCalls (w : Option WindowId) : List Call :=
  [ .gtk_window_set_title w "HexHunt",
    .gtk_window_set_default_size w 1280 720,
    .gtk_window_set_resizable w true,
    .gtk_window_set_decorated w true,
    .gtk_window_set_skip_taskbar_hint w false,
    .gtk_window_set_skip_pager_hint w false ]

/-- The calls `main` makes for the icon once the load has returned `icon`. -/
def iconCalls (w : Option WindowId) : Option Pixbuf → List Call
  | some p => [.gtk_window_set_icon w p, .g_object_unref (.pixbuf p)]
  | none => []

/-- The fixed path of the icon file. -/
def iconPath : String := "data/flutter_assets/assets/app_icon.png"

/-- Apply the effects of a list of calls, first call first. -/
def applyCalls (l : List Call) (ws : WindowId → WindowState) : WindowId → WindowState :=
  l.foldl (fun st c => c.effect st) ws

/-- A window as the toolkit creates it, before any configuration. -/
def blankWindow : WindowState :=
  ⟨"", -1, -1, true, true, false, false, none⟩

/-- A sample world: the initializer strips the toolkit option
`--g-fatal-warnings`, the application has window 3 active, the icon loads as
image 9, and the run loop returns 0. -/
def sampleEnv : Env where
  windows := fun _ => blankWindow
  gtk_init := fun a =>
    let rest := a.argv.filter (fun x => x != "--g-fatal-warnings")
    ⟨(rest.length : Int), rest⟩
  my_application_new := 7
  gtk_application_get_active_window := fun _ => some 3
  gdk_pixbuf_new_from_file := fun _ => some 9
  g_application_run := fun _ _ _ => 0

/-- A sample world with no active window, no icon file, and a run loop that
returns 42. -/
def bareEnv : Env where
  windows := fun _ => blankWindow
  gtk_init := fun a => a
  my_application_new := 7
  gtk_application_get_active_window := fun _ => none
  gdk_pixbuf_new_from_file := fun _ => none
  g_application_run := fun _ _ _ => 42

/-- A sample argument vector carrying a toolkit option. -/
def sampleArgs : Args := ⟨2, ["hexhunt", "--g-fatal-warnings"]⟩

/-- A sample argument vector without options. -/
def plainArgs : Args := ⟨1, ["hexhunt"]⟩

/-! ## The trace of `main` -/

/-- The complete call sequence of `main`, in closed form. -/
theorem main_trace (env : Env) (args : Args) :
    (main env args).trace =
      [Call.gtk_init args, Call.my_application_new,
        Call.gtk_application_get_active_window env.my_application_new]
      ++ configCalls (env.gtk_application_get_active_window env.my_application_new)
      ++ [Call.gdk_pixbuf_new_from_file iconPath none]
      ++ iconCalls (env.gtk_application_get_active_window env.my_application_new)
          (env.gdk_pixbuf_new_from_file iconPath)
      ++ [Call.g_application_run env.my_application_new (env.gtk_init args),
          Call.g_object_unref (Obj.app env.my_application_new)] := by
  unfold main iconPath
  cases h : env.gdk_pixbuf_new_from_file "data/flutter_assets/assets/app_icon.png" <;>
    simp [State.call, configCalls, iconCalls]

/-- The calls made before the run loop is entered. -/
theorem main_atRun_trace (env : Env) (args : Args) :
    (main env args).atRun.trace =
      [Call.gtk_init args, Call.my_application_new,
        Call.gtk_application_get_active_window env.my_application_new]
      ++ configCalls (env.gtk_application_get_active_window env.my_application_new)
      ++ [Call.gdk_pixbuf_new_from_file iconPath none]
      ++ iconCalls (env.gtk_application_get_active_window env.my_application_new)
          (env.gdk_pixbuf_new_from_file iconPath) := by
  unfold main iconPath
  cases h : env.gdk_pixbuf_new_from_file "data/flutter_assets/assets/app_icon.png" <;>
    simp [State.call, configCalls, iconCalls]

/-- Calls without a window argument leave the window store alone. -/
theorem effect_of_target_none (c : Call) (h : c.target = none)
    (ws : WindowId → WindowState) : c.effect ws = ws := by
  simp [Call.effect, h]

/-- The window store at the moment the run loop is entered: the initial store
after the six property calls and the icon calls. -/
theorem main_atRun_windows (env : Env) (args : Args) :
    (main env args).atRun.windows =
      applyCalls
        (configCalls (env.gtk_application_get_active_window env.my_application_new)
          ++ iconCalls (env.gtk_application_get_active_window env.my_application_new)
              (env.gdk_pixbuf_new_from_file iconPath))
        env.windows := by
  unfold main iconPath
  cases h : env.gdk_pixbuf_new_from_file "data/flutter_assets/assets/app_icon.png" <;>
    simp [State.call, configCalls, iconCalls, applyCalls, effect_of_target_none, Call.target]

/-- The status `main` returns, in closed form. -/
theorem main_status (env : Env) (args : Args) :
    (main env args).status =
      env.g_application_run (main env args).atRun env.my_application_new
        (env.gtk_init args) := by
  rfl

/-! ## Exit status -/

/-- C1: for every argument vector, every icon-load outcome and every integer
`s` that the run loop returns when it is entered in the state `main` has
prepared, `main` returns exactly `s`. -/
theorem main_returns_run_status (env : Env) (args : Args) (s : Int)
    (h : env.g_application_run (main env args).atRun env.my_application_new
          (env.gtk_init args) = s) :
    (main env args).status = s ∧
      (main env args).trace.filter Call.isRun =
        [Call.g_application_run env.my_application_new (env.gtk_init args)] := by
  refine ⟨by rw [main_status, h], ?_⟩
  rw [main_trace]
  cases env.gdk_pixbuf_new_from_file iconPath <;>
    simp [configCalls, iconCalls, Call.isRun]

/-- Witness for C1: the run loop of `bareEnv` returns 42 (the icon load fails
there), and so does `main`. -/
theorem main_returns_run_status_witness :
    bareEnv.g_application_run (main bareEnv plainArgs).atRun bareEnv.my_application_new
        (bareEnv.gtk_init plainArgs) = 42 ∧
      (main bareEnv plainArgs).status = 42 :=
  ⟨rfl, (main_returns_run_status bareEnv plainArgs 42 rfl).1⟩

/-! ## The icon -/

/-- C2: `gtk_window_set_icon` is called, on the window and with the loaded
image, exactly when the load returned a non-null image.  When the load fails
there is no icon-set call, the load was given a null error out-parameter so no
error is surfaced, no window's icon changes, and `main` still enters the run
loop and returns its status. -/
theorem icon_set_iff_loaded (env : Env) (args : Args) :
    (main env args).trace.filter Call.isSetIcon =
        (match env.gdk_pixbuf_new_from_file iconPath with
          | some p => [Call.gtk_window_set_icon
              (env.gtk_application_get_active_window env.my_application_new) p]
          | none => []) ∧
      ((main env args).trace.any Call.isSetIcon =
        (env.gdk_pixbuf_new_from_file iconPath).isSome) ∧
      (∀ p w, env.gdk_pixbuf_new_from_file iconPath = some p →
        env.gtk_application_get_active_window env.my_application_new = some w →
        ((main env args).atRun.windows w).icon = some p) ∧
      (env.gdk_pixbuf_new_from_file iconPath = none →
        (∀ c ∈ (main env args).trace, c.isSetIcon = false) ∧
        (main env args).trace.filter Call.isFileRead =
          [Call.gdk_pixbuf_new_from_file iconPath none] ∧
        (∀ w, ((main env args).atRun.windows w).icon = (env.windows w).icon) ∧
        Call.g_application_run env.my_application_new (env.gtk_init args)
          ∈ (main env args).trace ∧
        (main env args).status =
          env.g_application_run (main env args).atRun env.my_application_new
            (env.gtk_init args)) := by
  refine ⟨?_, ?_, ?_, ?_⟩
  · rw [main_trace]
    cases env.gdk_pixbuf_new_from_file iconPath <;>
      simp [configCalls, iconCalls, Call.isSetIcon]
  · rw [main_trace]
    cases env.gdk_pixbuf_new_from_file iconPath <;>
      simp [configCalls, iconCalls, Call.isSetIcon]
  · intro p w hp hw
    rw [main_atRun_windows, hp, hw]
    simp [applyCalls, configCalls, iconCalls, Call.effect, Call.target, Call.onWindow]
  · intro hnone
    refine ⟨?_, ?_, ?_, ?_, main_status env args⟩
    · rw [main_trace, hnone]
      simp [configCalls, iconCalls, Call.isSetIcon]
    · rw [main_trace, hnone]
      simp [configCalls, iconCalls, Call.isFileRead]
    · intro w
      rw [main_atRun_windows, hnone]
      cases env.gtk_application_get_active_window env.my_application_new with
      | none =>
        simp [applyCalls, configCalls, iconCalls, Call.effect, Call.target]
      | some i =>
        by_cases hwi : w = i
        · subst hwi
          simp [applyCalls, configCalls, iconCalls, Call.effect, Call.target, Call.onWindow]
        · simp [applyCalls, configCalls, iconCalls, Call.effect, Call.target,
            Function.update_noteq hwi]
    · rw [main_trace]
      simp

/-- Witness for C2: in `sampleEnv` the icon loads as image 9 and window 3 is
active, so window 3 carries icon 9 when the run loop is entered; in `bareEnv`
the load fails and no icon-set call is made. -/
theorem icon_set_iff_loaded_witness :
    ((main sampleEnv sampleArgs).atRun.windows 3).icon = some 9 ∧
      (∀ c ∈ (main bareEnv plainArgs).trace, c.isSetIcon = false) :=
  ⟨(icon_set_iff_loaded sampleEnv sampleArgs).2.2.1 9 3 rfl rfl,
    ((icon_set_iff_loaded bareEnv plainArgs).2.2.2 rfl).1⟩

/-! ## The window configuration -/

/-- When the active-window query returns a window, that window carries, when
the run loop is entered, the title "HexHunt", the default size 1280 by 720,
resizable and decorated set, and neither skip hint set, whatever the argument
vector and the icon-load outcome. -/
theorem configured_window_properties (env : Env) (args : Args) (w : WindowId)
    (h : env.gtk_application_get_active_window env.my_application_new = some w) :
    ((main env args).atRun.windows w).title = "HexHunt" ∧
      ((main env args).atRun.windows w).defaultWidth = 1280 ∧
      ((main env args).atRun.windows w).defaultHeight = 720 ∧
      ((main env args).atRun.windows w).resizable = true ∧
      ((main env args).atRun.windows w).decorated = true ∧
      ((main env args).atRun.windows w).skipTaskbarHint = false ∧
      ((main env args).atRun.windows w).skipPagerHint = false := by
  rw [main_atRun_windows, h]
  cases env.gdk_pixbuf_new_from_file iconPath <;>
    simp [applyCalls, configCalls, iconCalls, Call.effect, Call.target, Call.onWindow]

/-- C3 at the null window: in `bareEnv` the active-window query, made before
the application is run, returns null.  `main` still issues its six property
calls, on the null handle, and when the run loop is entered the window store is
the initial one: no window has the title "HexHunt" or the default size 1280 by
720, so no window is in the state C3 describes. -/
theorem null_window_left_unconfigured :
    bareEnv.gtk_application_get_active_window bareEnv.my_application_new = none ∧
      (main bareEnv plainArgs).trace.filter Call.isWindowCall = configCalls none ∧
      (main bareEnv plainArgs).atRun.windows = bareEnv.windows ∧
      (∀ w, ((main bareEnv plainArgs).atRun.windows w).title ≠ "HexHunt" ∧
        ((main bareEnv plainArgs).atRun.windows w).defaultWidth ≠ 1280 ∧
        ((main bareEnv plainArgs).atRun.windows w).defaultHeight ≠ 720) := by
  have hw : (main bareEnv plainArgs).atRun.windows = bareEnv.windows := by
    rw [main_atRun_windows]
    rfl
  refine ⟨rfl, by decide, hw, ?_⟩
  intro w
  rw [hw]
  show blankWindow.title ≠ "HexHunt" ∧ blankWindow.defaultWidth ≠ 1280 ∧
    blankWindow.defaultHeight ≠ 720
  decide

/-! ## Ownership -/

/-- C4: on the one exit path of `main` every owned reference is released
exactly once.  The application object is created once and released once, by the
last call of the execution (end of scope).  When the load succeeded the image
is released exactly once, directly after it was applied to the window; when the
load failed no image is released.  No object is released twice, and there are
exactly as many releases as acquired references. -/
theorem resources_released_once (env : Env) (args : Args) :
    (main env args).trace.count Call.my_application_new = 1 ∧
      (main env args).trace.count
        (Call.g_object_unref (Obj.app env.my_application_new)) = 1 ∧
      (main env args).trace.getLast? =
        some (Call.g_object_unref (Obj.app env.my_application_new)) ∧
      (∀ p, env.gdk_pixbuf_new_from_file iconPath = some p →
        (main env args).trace.count (Call.g_object_unref (Obj.pixbuf p)) = 1 ∧
        ∃ before after, (main env args).trace =
          before ++ [Call.gtk_window_set_icon
              (env.gtk_application_get_active_window env.my_application_new) p,
            Call.g_object_unref (Obj.pixbuf p)] ++ after) ∧
      (env.gdk_pixbuf_new_from_file iconPath = none →
        ∀ p, (main env args).trace.count (Call.g_object_unref (Obj.pixbuf p)) = 0) ∧
      (∀ o, (main env args).trace.count (Call.g_object_unref o) ≤ 1) ∧
      (∀ o, Call.g_object_unref o ∈ (main env args).trace →
        o = Obj.app env.my_application_new ∨
          ∃ p, env.gdk_pixbuf_new_from_file iconPath = some p ∧ o = Obj.pixbuf p) ∧
      ((main env args).trace.filter Call.isRelease).length =
        1 + (if (env.gdk_pixbuf_new_from_file iconPath).isSome then 1 else 0) := by
  refine ⟨?_, ?_, ?_, ?_, ?_, ?_, ?_, ?_⟩
  · rw [main_trace]
    cases env.gdk_pixbuf_new_from_file iconPath <;>
      simp [configCalls, iconCalls, List.count_cons]
  · rw [main_trace]
    cases env.gdk_pixbuf_new_from_file iconPath <;>
      simp [configCalls, iconCalls, List.count_cons]
  · rw [main_trace]
    cases env.gdk_pixbuf_new_from_file iconPath <;>
      simp [configCalls, iconCalls]
  · intro p hp
    refine ⟨?_, ?_⟩
    · rw [main_trace, hp]
      simp [configCalls, iconCalls, List.count_cons]
    · refine ⟨[Call.gtk_init args, Call.my_application_new,
          Call.gtk_application_get_active_window env.my_application_new]
          ++ configCalls (env.gtk_application_get_active_window env.my_application_new)
          ++ [Call.gdk_pixbuf_new_from_file iconPath none],
        [Call.g_application_run env.my_application_new (env.gtk_init args),
          Call.g_object_unref (Obj.app env.my_application_new)], ?_⟩
      rw [main_trace, hp]
      simp [iconCalls]
  · intro hnone p
    rw [main_trace, hnone]
    simp [configCalls, iconCalls, List.count_cons]
  · intro o
    rw [main_trace]
    cases hl : env.gdk_pixbuf_new_from_file iconPath with
    | none =>
      simp only [configCalls, iconCalls, List.count_cons, List.count_append, List.count_nil]
      simp
      split <;> simp
    | some p =>
      cases o with
      | app a =>
        simp only [configCalls, iconCalls, List.count_cons, List.count_append, List.count_nil]
        simp
        split <;> simp
      | pixbuf q =>
        simp only [configCalls, iconCalls, List.count_cons, List.count_append, List.count_nil]
        simp
        split <;> simp
  · intro o ho
    rw [main_trace] at ho
    cases hl : env.gdk_pixbuf_new_from_file iconPath with
    | none =>
      rw [hl] at ho
      simp [configCalls, iconCalls] at ho
      exact Or.inl ho
    | some p =>
      rw [hl] at ho
      simp [configCalls, iconCalls] at ho
      rcases ho with ho | ho
      · exact Or.inr ⟨p, rfl, ho⟩
      · exact Or.inl ho
  · rw [main_trace]
    cases env.gdk_pixbuf_new_from_file iconPath <;>
      simp [configCalls, iconCalls, Call.isRelease]

/-- Witness for C4: in `sampleEnv` the icon loads as image 9, which is released
once; in `bareEnv` the load fails and image 9 is never released. -/
theorem resources_released_once_witness :
    (main sampleEnv sampleArgs).trace.count (Call.g_object_unref (Obj.pixbuf 9)) = 1 ∧
      (main bareEnv plainArgs).trace.count (Call.g_object_unref (Obj.pixbuf 9)) = 0 :=
  ⟨((resources_released_once sampleEnv sampleArgs).2.2.2.1 9 rfl).1,
    (resources_released_once bareEnv plainArgs).2.2.2.2.1 rfl 9⟩

/-! ## The argument vector -/

/-- C5, as the code has it: the initializer is called once, with the argument
vector `main` received; the run loop is called once, with the argument vector
the initializer left behind.  The two agree whenever the initializer rewrites
nothing. -/
theorem args_forwarding (env : Env) (args : Args) :
    (main env args).trace.filter Call.isInit = [Call.gtk_init args] ∧
      (main env args).trace.filter Call.isRun =
        [Call.g_application_run env.my_application_new (env.gtk_init args)] ∧
      (env.gtk_init args = args →
        (main env args).trace.filter Call.isRun =
          [Call.g_application_run env.my_application_new args]) := by
  have hrun : (main env args).trace.filter Call.isRun =
      [Call.g_application_run env.my_application_new (env.gtk_init args)] := by
    rw [main_trace]
    cases env.gdk_pixbuf_new_from_file iconPath <;>
      simp [configCalls, iconCalls, Call.isRun]
  refine ⟨?_, hrun, ?_⟩
  · rw [main_trace]
    cases env.gdk_pixbuf_new_from_file iconPath <;>
      simp [configCalls, iconCalls, Call.isInit]
  · intro h
    rw [hrun, h]

/-- Witness for C5 as amended: the initializer of `bareEnv` rewrites nothing,
and the run loop receives the argument vector of `main`. -/
theorem args_forwarding_witness :
    bareEnv.gtk_init plainArgs = plainArgs ∧
      (main bareEnv plainArgs).trace.filter Call.isRun =
        [Call.g_application_run bareEnv.my_application_new plainArgs] :=
  ⟨rfl, (args_forwarding bareEnv plainArgs).2.2 rfl⟩

/-- C5 fails as stated: given `hexhunt --g-fatal-warnings`, with an initializer
that strips the toolkit option, the run loop is not called with the argument
vector of `main` but with the single argument `hexhunt`. -/
theorem run_args_rewritten_by_init :
    Call.g_application_run sampleEnv.my_application_new sampleArgs
        ∉ (main sampleEnv sampleArgs).trace ∧
      (main sampleEnv sampleArgs).trace.filter Call.isRun =
        [Call.g_application_run 7 ⟨1, ["hexhunt"]⟩] := by
  decide

/-! ## Order of the calls -/

/-- C7, as the code has it: every execution is the linear sequence
initializer, application construction, active-window query, the six property
calls, the icon load, the icon calls when the load succeeded, the run loop, and
the end-of-scope release of the application object.  The initializer comes
first and occurs once; the run loop occurs once, after every configuration call
and the icon load; the only thing that follows the run loop is the release of
the application object; the only variation is the icon. -/
theorem main_call_order (env : Env) (args : Args) :
    (main env args).trace =
        [Call.gtk_init args, Call.my_application_new,
          Call.gtk_application_get_active_window env.my_application_new]
        ++ configCalls (env.gtk_application_get_active_window env.my_application_new)
        ++ [Call.gdk_pixbuf_new_from_file iconPath none]
        ++ iconCalls (env.gtk_application_get_active_window env.my_application_new)
            (env.gdk_pixbuf_new_from_file iconPath)
        ++ [Call.g_application_run env.my_application_new (env.gtk_init args),
            Call.g_object_unref (Obj.app env.my_application_new)] ∧
      (main env args).trace.head? = some (Call.gtk_init args) ∧
      (main env args).trace.filter Call.isInit = [Call.gtk_init args] ∧
      (main env args).trace.filter Call.isRun =
        [Call.g_application_run env.my_application_new (env.gtk_init args)] ∧
      (main env args).trace =
        (main env args).atRun.trace
          ++ [Call.g_application_run env.my_application_new (env.gtk_init args),
              Call.g_object_unref (Obj.app env.my_application_new)] ∧
      (∀ c ∈ (main env args).atRun.trace, c.isRun = false) ∧
      (∀ c ∈ configCalls (env.gtk_application_get_active_window env.my_application_new),
        c ∈ (main env args).atRun.trace) ∧
      Call.gdk_pixbuf_new_from_file iconPath none ∈ (main env args).atRun.trace ∧
      (main env args).trace.length =
        (if (env.gdk_pixbuf_new_from_file iconPath).isSome then 14 else 12) := by
  refine ⟨main_trace env args, ?_, ?_, ?_, ?_, ?_, ?_, ?_, ?_⟩
  · rw [main_trace]
    simp
  · rw [main_trace]
    cases env.gdk_pixbuf_new_from_file iconPath <;>
      simp [configCalls, iconCalls, Call.isInit]
  · rw [main_trace]
    cases env.gdk_pixbuf_new_from_file iconPath <;>
      simp [configCalls, iconCalls, Call.isRun]
  · rw [main_trace, main_atRun_trace]
  · rw [main_atRun_trace]
    cases env.gdk_pixbuf_new_from_file iconPath <;>
      simp [configCalls, iconCalls, Call.isRun]
  · intro c hc
    rw [main_atRun_trace]
    simp [hc]
  · rw [main_atRun_trace]
    simp
  · rw [main_trace]
    cases env.gdk_pixbuf_new_from_file iconPath <;>
      simp [configCalls, iconCalls]

/-- C7 fails as stated: the return of the status is not the only thing that
follows the run loop.  From the run loop on, the execution in `bareEnv` makes
two calls: the run loop, and then the release of the application object. -/
theorem release_follows_run_loop :
    (main bareEnv plainArgs).trace.dropWhile (fun c => !c.isRun) =
      [Call.g_application_run 7 plainArgs, Call.g_object_unref (Obj.app 7)] := by
  decide

/-! ## The icon file -/

/-- C8: in every execution exactly one file read is attempted, once, at the
fixed relative path; a failed load is not retried, and the path does not depend
on the argument vector. -/
theorem single_icon_file_read (env : Env) (args : Args) :
    (main env args).trace.filter Call.isFileRead =
        [Call.gdk_pixbuf_new_from_file "data/flutter_assets/assets/app_icon.png" none] ∧
      (main env args).trace.countP Call.isFileRead = 1 ∧
      (∀ other : Args, (main env other).trace.filter Call.isFileRead =
        (main env args).trace.filter Call.isFileRead) := by
  have h : ∀ a : Args, (main env a).trace.filter Call.isFileRead =
      [Call.gdk_pixbuf_new_from_file "data/flutter_assets/assets/app_icon.png" none] := by
    intro a
    rw [main_trace]
    cases env.gdk_pixbuf_new_from_file iconPath <;>
      simp [configCalls, iconCalls, Call.isFileRead, iconPath]
  refine ⟨h args, ?_, ?_⟩
  · rw [List.countP_eq_length_filter, h args]
    rfl
  · intro other
    rw [h other, h args]

/-! ## The window handle -/

/-- C9: whatever handle `w` the single active-window query returns, null
included, the window calls of `main` are the six property calls on `w`,
followed by the icon assignment on `w` when the icon loaded; every window call
is on `w`. -/
theorem window_calls_unguarded (env : Env) (args : Args) (w : Option WindowId)
    (h : env.gtk_application_get_active_window env.my_application_new = w) :
    (main env args).trace.filter Call.isWindowCall =
        configCalls w ++
          (match env.gdk_pixbuf_new_from_file iconPath with
            | some p => [Call.gtk_window_set_icon w p]
            | none => []) ∧
      (main env args).trace.count
        (Call.gtk_application_get_active_window env.my_application_new) = 1 ∧
      (∀ c ∈ (main env args).trace, c.isWindowCall = true → c.target = w) := by
  subst h
  have h1 : (main env args).trace.filter Call.isWindowCall =
      configCalls (env.gtk_application_get_active_window env.my_application_new) ++
        (match env.gdk_pixbuf_new_from_file iconPath with
          | some p => [Call.gtk_window_set_icon
              (env.gtk_application_get_active_window env.my_application_new) p]
          | none => []) := by
    rw [main_trace]
    cases env.gdk_pixbuf_new_from_file iconPath <;>
      simp [configCalls, iconCalls, Call.isWindowCall]
  refine ⟨h1, ?_, ?_⟩
  · rw [main_trace]
    cases env.gdk_pixbuf_new_from_file iconPath <;>
      simp [configCalls, iconCalls, List.count_cons]
  · intro c hc hw
    have hmem : c ∈ (main env args).trace.filter Call.isWindowCall :=
      List.mem_filter.mpr ⟨hc, hw⟩
    rw [h1] at hmem
    cases hl : env.gdk_pixbuf_new_from_file iconPath with
    | none =>
      rw [hl] at hmem
      simp [configCalls] at hmem
      rcases hmem with rfl | rfl | rfl | rfl | rfl | rfl <;> rfl
    | some p =>
      rw [hl] at hmem
      simp [configCalls] at hmem
      rcases hmem with rfl | rfl | rfl | rfl | rfl | rfl | rfl <;> rfl

/-- Witness for C9: `bareEnv` has no active window, and `main` still issues
the six property calls, on the null handle. -/
theorem window_calls_unguarded_witness :
    bareEnv.gtk_application_get_active_window bareEnv.my_application_new = none ∧
      (main bareEnv plainArgs).trace.filter Call.isWindowCall = configCalls none :=
  ⟨rfl, by
    have h := (window_calls_unguarded bareEnv plainArgs none rfl).1
    simpa [bareEnv] using h⟩

/-! ## Independence of the property calls -/

/-- Every property call of `main` is on the window handle it was built for. -/
theorem target_of_configCall (w : Option WindowId) (c : Call) (hc : c ∈ configCalls w) :
    c.target = w := by
  simp [configCalls] at hc
  rcases hc with rfl | rfl | rfl | rfl | rfl | rfl <;> rfl

/-- On one window, any two property calls of `main` commute. -/
theorem onWindow_comm (w : Option WindowId) (c d : Call) (hc : c ∈ configCalls w)
    (hd : d ∈ configCalls w) (s : WindowState) :
    d.onWindow (c.onWindow s) = c.onWindow (d.onWindow s) := by
  simp [configCalls] at hc hd
  rcases hc with rfl | rfl | rfl | rfl | rfl | rfl <;>
    rcases hd with rfl | rfl | rfl | rfl | rfl | rfl <;> rfl

/-- On one window, every property call of `main` is idempotent. -/
theorem onWindow_idem (w : Option WindowId) (c : Call) (hc : c ∈ configCalls w)
    (s : WindowState) : c.onWindow (c.onWindow s) = c.onWindow s := by
  simp [configCalls] at hc
  rcases hc with rfl | rfl | rfl | rfl | rfl | rfl <;> rfl

/-- On the window store, any two property calls of `main` commute. -/
theorem effect_comm (w : Option WindowId) (c d : Call) (hc : c ∈ configCalls w)
    (hd : d ∈ configCalls w) (ws : WindowId → WindowState) :
    d.effect (c.effect ws) = c.effect (d.effect ws) := by
  simp only [Call.effect, target_of_configCall w c hc, target_of_configCall w d hd]
  cases w with
  | none => rfl
  | some i =>
    simp only [Function.update_same, Function.update_idem]
    rw [onWindow_comm (some i) c d hc hd]

/-- On the window store, every property call of `main` is idempotent. -/
theorem effect_idem (w : Option WindowId) (c : Call) (hc : c ∈ configCalls w)
    (ws : WindowId → WindowState) : c.effect (c.effect ws) = c.effect ws := by
  simp only [Call.effect, target_of_configCall w c hc]
  cases w with
  | none => rfl
  | some i =>
    simp only [Function.update_same, Function.update_idem]
    rw [onWindow_idem (some i) c hc]

/-- A property call can be moved across any sequence of property calls. -/
theorem applyCalls_effect (w : Option WindowId) (l : List Call)
    (hl : ∀ x ∈ l, x ∈ configCalls w) (c : Call) (hc : c ∈ configCalls w)
    (ws : WindowId → WindowState) :
    applyCalls l (c.effect ws) = c.effect (applyCalls l ws) := by
  induction l generalizing ws with
  | nil => rfl
  | cons x t ih =>
    have hx : x ∈ configCalls w := hl x (List.mem_cons_self x t)
    have ht : ∀ y ∈ t, y ∈ configCalls w := fun y hy => hl y (List.mem_cons_of_mem x hy)
    show applyCalls t (x.effect (c.effect ws)) = c.effect (applyCalls t (x.effect ws))
    rw [effect_comm w c x hc hx ws, ih ht]

/-- A property call made before a sequence that repeats it changes nothing. -/
theorem applyCalls_absorb (w : Option WindowId) (l : List Call)
    (hl : ∀ x ∈ l, x ∈ configCalls w) (c : Call) (hc : c ∈ l)
    (ws : WindowId → WindowState) :
    applyCalls l (c.effect ws) = applyCalls l ws := by
  induction l generalizing ws with
  | nil => cases hc
  | cons x t ih =>
    have hx : x ∈ configCalls w := hl x (List.mem_cons_self x t)
    have ht : ∀ y ∈ t, y ∈ configCalls w := fun y hy => hl y (List.mem_cons_of_mem x hy)
    show applyCalls t (x.effect (c.effect ws)) = applyCalls t (x.effect ws)
    rcases List.mem_cons.mp hc with rfl | hct
    · rw [effect_idem w c hx ws]
    · rw [effect_comm w c x (ht c hct) hx ws, ih ht hct]

/-- A sequence of property calls made before a sequence that repeats all of
them changes nothing. -/
theorem applyCalls_absorb_list (w : Option WindowId) (l₁ l₂ : List Call)
    (h₂ : ∀ x ∈ l₂, x ∈ configCalls w) (hsub : ∀ x ∈ l₁, x ∈ l₂)
    (ws : WindowId → WindowState) :
    applyCalls l₂ (applyCalls l₁ ws) = applyCalls l₂ ws := by
  induction l₁ generalizing ws with
  | nil => rfl
  | cons x t ih =>
    have hx : x ∈ l₂ := hsub x (List.mem_cons_self x t)
    have ht : ∀ y ∈ t, y ∈ l₂ := fun y hy => hsub y (List.mem_cons_of_mem x hy)
    show applyCalls l₂ (applyCalls t (x.effect ws)) = applyCalls l₂ ws
    rw [ih ht, applyCalls_absorb w l₂ h₂ x hx]

/-- Two sequences of property calls commute. -/
theorem applyCalls_comm (w : Option WindowId) (l₁ l₂ : List Call)
    (h₁ : ∀ x ∈ l₁, x ∈ configCalls w) (h₂ : ∀ x ∈ l₂, x ∈ configCalls w)
    (ws : WindowId → WindowState) :
    applyCalls l₂ (applyCalls l₁ ws) = applyCalls l₁ (applyCalls l₂ ws) := by
  induction l₂ generalizing ws with
  | nil => rfl
  | cons x t ih =>
    have hx : x ∈ configCalls w := h₂ x (List.mem_cons_self x t)
    have ht : ∀ y ∈ t, y ∈ configCalls w := fun y hy => h₂ y (List.mem_cons_of_mem x hy)
    show applyCalls t (x.effect (applyCalls l₁ ws)) = applyCalls l₁ (applyCalls t (x.effect ws))
    rw [← applyCalls_effect w l₁ h₁ x hx, ih ht]

/-- Two sequences of property calls that make the same calls, in whatever
order and however often, produce the same window store. -/
theorem applyCalls_congr (w : Option WindowId) (l₁ l₂ : List Call)
    (h₁ : ∀ x ∈ l₁, x ∈ configCalls w) (h₂ : ∀ x ∈ l₂, x ∈ configCalls w)
    (h₁₂ : ∀ x ∈ l₁, x ∈ l₂) (h₂₁ : ∀ x ∈ l₂, x ∈ l₁)
    (ws : WindowId → WindowState) :
    applyCalls l₁ ws = applyCalls l₂ ws := by
  rw [← applyCalls_absorb_list w l₂ l₁ h₁ h₂₁ ws, ← applyCalls_comm w l₁ l₂ h₁ h₂ ws,
    applyCalls_absorb_list w l₁ l₂ h₂ h₁₂ ws]

/-- C6: the six property calls of `main`, on whatever window handle `w`, are
each idempotent and pairwise commute on the window store.  From any initial
store, any permutation of the six, and any sequence that makes exactly these
six calls with repetitions, yields the store that the order used in `main`
yields; and the store `main` has when the run loop is entered is that store,
followed by the icon calls. -/
theorem property_calls_idempotent_commute (w : Option WindowId) :
    (∀ c ∈ configCalls w, ∀ ws, c.effect (c.effect ws) = c.effect ws) ∧
      (∀ c ∈ configCalls w, ∀ d ∈ configCalls w, ∀ ws,
        d.effect (c.effect ws) = c.effect (d.effect ws)) ∧
      (∀ l : List Call, l.Perm (configCalls w) →
        ∀ ws, applyCalls l ws = applyCalls (configCalls w) ws) ∧
      (∀ l : List Call, (∀ c, c ∈ l ↔ c ∈ configCalls w) →
        ∀ ws, applyCalls l ws = applyCalls (configCalls w) ws) ∧
      (∀ (env : Env) (args : Args),
        env.gtk_application_get_active_window env.my_application_new = w →
        (main env args).atRun.windows =
          applyCalls (iconCalls w (env.gdk_pixbuf_new_from_file iconPath))
            (applyCalls (configCalls w) env.windows)) := by
  refine ⟨fun c hc ws => effect_idem w c hc ws,
    fun c hc d hd ws => effect_comm w c d hc hd ws, ?_, ?_, ?_⟩
  · intro l hperm ws
    exact applyCalls_congr w l (configCalls w) (fun x hx => (hperm.mem_iff).mp hx)
      (fun x hx => hx) (fun x hx => (hperm.mem_iff).mp hx)
      (fun x hx => (hperm.mem_iff).mpr hx) ws
  · intro l hmem ws
    exact applyCalls_congr w l (configCalls w) (fun x hx => (hmem x).mp hx)
      (fun x hx => hx) (fun x hx => (hmem x).mp hx) (fun x hx => (hmem x).mpr hx) ws
  · intro env args hw
    rw [main_atRun_windows, hw]
    simp [applyCalls, List.foldl_append]

/-- Witness for C6: the six property calls on window 3 in reverse order, and
in reverse order with the title call repeated, produce the store that the order
of `main` produces. -/
theorem property_calls_idempotent_commute_witness :
    (configCalls (some 3)).reverse.Perm (configCalls (some 3)) ∧
      applyCalls (configCalls (some 3)).reverse (fun _ => blankWindow) =
        applyCalls (configCalls (some 3)) (fun _ => blankWindow) ∧
      applyCalls (Call.gtk_window_set_title (some 3) "HexHunt" ::
          (configCalls (some 3)).reverse) (fun _ => blankWindow) =
        applyCalls (configCalls (some 3)) (fun _ => blankWindow) :=
  ⟨List.reverse_perm _,
    (property_calls_idempotent_commute (some 3)).2.2.1 _ (List.reverse_perm _) _,
    (property_calls_idempotent_commute (some 3)).2.2.2.1 _
      (by intro c; simp [configCalls]; tauto) _⟩

end HexHunt
